import Mathlib

/-!
Verification development for the VJ/DJ broadcast pipeline
(`vj_pipeline.py` / `vj_effects.py`).

The Python source is shallowly embedded: pure functions become Lean
functions, the stochastic library calls (`random.random`, `random.randint`,
`random.uniform`, `random.choice`) become explicit oracle parameters (a
draw value, or an index reduced modulo the list length), and the stateful
main-loop fragments become explicit state-passing step functions.
Printf-style float formatting of numeric command-line tokens is abstracted
by `fmtQ` (no claim depends on the decimal rendering of a number).
-/

namespace VJ

/-! ## Effects catalog (`vj_effects.py`) -/

/-- An effect entry: the dicts `{"name": ..., "filter": ...}` of the catalog. -/
structure Effect where
  name : String
  filter : String
deriving DecidableEq

/-- `LIGHT_EFFECTS` — subtle, can stack freely. -/
def LIGHT_EFFECTS : List Effect := [
  ⟨"warm_shift", "colorbalance=rs=0.15:gs=-0.05:bs=-0.1"⟩,
  ⟨"cool_shift", "colorbalance=rs=-0.1:gs=0.05:bs=0.15"⟩,
  ⟨"high_saturation", "eq=saturation=1.5"⟩,
  ⟨"low_saturation", "eq=saturation=0.6"⟩,
  ⟨"hue_drift", "hue=H=2*PI*t/10"⟩,
  ⟨"vignette", "vignette=PI/4"⟩,
  ⟨"soft_blur", "gblur=sigma=1.5"⟩,
  ⟨"brightness_boost", "eq=brightness=0.08:contrast=1.1"⟩,
  ⟨"dark_contrast", "eq=brightness=-0.05:contrast=1.3"⟩,
  ⟨"slight_hue_rotate", "hue=h=30"⟩,
  ⟨"sepia", "colorchannelmixer=.393:.769:.189:0:.349:.686:.168:0:.272:.534:.131"⟩]

/-- `MEDIUM_EFFECTS` — more noticeable, max 2 per clip. -/
def MEDIUM_EFFECTS : List Effect := [
  ⟨"frame_blend", "tblend=all_mode=average"⟩,
  ⟨"frame_blend_screen", "tblend=all_mode=screen"⟩,
  ⟨"rgba_shift", "rgbashift=rh=-3:bh=3"⟩,
  ⟨"film_grain", "noise=alls=20:allf=t+u"⟩,
  ⟨"cross_process", "curves=preset=cross_process"⟩,
  ⟨"vintage", "curves=preset=vintage"⟩,
  ⟨"negative", "curves=preset=negative"⟩,
  ⟨"chromatic_aberration", "rgbashift=rh=5:rv=-2:bh=-5:bv=2"⟩,
  ⟨"posterize", "lutyuv=y=\x27bitand(val,240)\x27:u=\x27bitand(val,240)\x27:v=\x27bitand(val,240)\x27"⟩,
  ⟨"scan_lines", "drawgrid=w=0:h=2:t=1:c=black@0.3"⟩,
  ⟨"color_bleed", "gblur=sigma=3,rgbashift=rh=8:bh=-8"⟩,
  ⟨"red_channel", "colorchannelmixer=rr=1:rg=0:rb=0:gg=0:bb=0"⟩,
  ⟨"blue_channel", "colorchannelmixer=rr=0:gg=0:bb=1:bg=0:br=0"⟩]

/-- `HEAVY_EFFECTS` — dramatic, max 1 per clip. -/
def HEAVY_EFFECTS : List Effect := [
  ⟨"edge_glow", "edgedetect=low=0.1:high=0.3:mode=colormix"⟩,
  ⟨"pixelate", "scale=iw/8:ih/8:flags=neighbor,scale=iw*8:ih*8:flags=neighbor"⟩,
  ⟨"psychedelic_hue", "hue=H=2*PI*t/3:s=3"⟩,
  ⟨"quad_mirror", "crop=iw/2:ih/2:0:0,split[a][b];[a]hflip[c];[b][c]hstack,split[d][e];[d]vflip[f];[e][f]vstack"⟩,
  ⟨"heavy_trails", "tblend=all_mode=addition:all_opacity=0.7"⟩,
  ⟨"solarize", "lutyuv=y=\x27if(gt(val,128),256-val,val)*2\x27"⟩,
  ⟨"glitch", "noise=alls=40:allf=t,rgbashift=rh=10:rv=5:bh=-10:bv=-3"⟩,
  ⟨"deep_pixelate", "scale=iw/16:ih/16:flags=neighbor,scale=iw*16:ih*16:flags=neighbor"⟩]

/-- A daypart mood profile (`DAYPART_PROFILES` values). -/
structure Profile where
  tierWeights : ℚ × ℚ × ℚ
  speedRange : ℚ × ℚ
  overlayChance : ℚ
  blendModes : List String

/-- The `"default"` profile. -/
def defaultProfile : Profile :=
  ⟨(0.50, 0.35, 0.15), (0.9, 1.1), 0.40, ["screen", "overlay", "softlight"]⟩

/-- `DAYPART_PROFILES` as an association list. -/
def DAYPART_PROFILES : List (String × Profile) := [
  ("daytime", ⟨(0.60, 0.30, 0.10), (0.85, 1.0), 0.40, ["screen", "addition", "softlight"]⟩),
  ("nighttime", ⟨(0.25, 0.40, 0.35), (1.5, 2.2), 0.50, ["multiply", "overlay", "softlight", "screen"]⟩),
  ("overnight", ⟨(0.15, 0.30, 0.55), (1.5, 2.5), 0.55, ["difference", "hardlight", "exclusion", "multiply"]⟩),
  ("default", defaultProfile)]

/-- `DAYPART_PROFILES.get(daypart, DAYPART_PROFILES["default"])`: a `None`
daypart or an unknown name falls back to the default profile. -/
def getProfile (daypart : Option String) : Profile :=
  match daypart with
  | none => defaultProfile
  | some d => ((DAYPART_PROFILES.lookup d).getD defaultProfile)

/-- `INCOMPATIBLE_PAIRS` — effects that clash, never picked together.
Each Python two-element set is embedded as a two-element list. -/
def INCOMPATIBLE_PAIRS : List (List String) := [["edge_glow", "high_saturation"]]

/-- `build_filter_string(effects)`: comma-joined filter chain. -/
def build_filter_string (effects : List Effect) : String :=
  String.intercalate "," (effects.map Effect.filter)

/-- The `blocked` set computed inside `pick_effects`: for every incompatible
pair that overlaps the already-chosen names, block the pair members not yet
chosen (`blocked |= pair - overlap`). -/
def blockedFor (chosenNames : List String) : List String :=
  INCOMPATIBLE_PAIRS.foldl
    (fun acc pair =>
      let overlap := pair.filter (fun n => decide (n ∈ chosenNames))
      if overlap.isEmpty then acc
      else acc ++ pair.filter (fun n => decide (n ∉ chosenNames)))
    []

/-- The three effect tiers. -/
inductive Tier where
  | light
  | medium
  | heavy
deriving DecidableEq

/-- Loop state of `pick_effects`: the `chosen` list, the `chosen_names`
set (as a list; only membership is used), and the two tier counters. -/
structure PickState where
  chosen : List Effect
  chosenNames : List String
  mediumCount : Nat
  heavyCount : Nat

/-- The `random.choice` of the `pick_effects` loop body: compute the
`blocked` names, restrict the pool to eligible effects (falling back to
the whole pool when nothing is eligible, as the source does), and choose. -/
def pickedEffect (pool : List Effect) (chooseIdx : Nat)
    (chosenNames : List String) : Effect :=
  let blocked := blockedFor chosenNames
  let eligible := pool.filter (fun e => decide (e.name ∉ blocked))
  let pool' := if eligible.isEmpty then pool else eligible
  pool'.getD (chooseIdx % pool'.length) ⟨"", ""⟩

/-- The body of the `pick_effects` loop after the pool and tier of the
iteration are fixed: choose an eligible effect and update the chosen
list, the name set and the tier counters. -/
def pickApply (pool : List Effect) (tier : Tier) (chooseIdx : Nat)
    (s : PickState) : PickState :=
  let effect := pickedEffect pool chooseIdx s.chosenNames
  { chosen := s.chosen ++ [effect]
    chosenNames := s.chosenNames ++ [effect.name]
    mediumCount := s.mediumCount + (if tier = Tier.medium then 1 else 0)
    heavyCount := s.heavyCount + (if tier = Tier.heavy then 1 else 0) }

/-- One iteration of the `pick_effects` selection loop: roll a tier from
the daypart weights, enforce the tier caps (at most two medium, at most
one heavy — demoting the pool accordingly), then pick from the pool.
`roll` is the `random.random()` draw, `chooseIdx` the `random.choice`
oracle (reduced modulo the eligible-list length). -/
def pickStep (lightW mediumThreshold : ℚ) (roll : ℚ) (chooseIdx : Nat)
    (s : PickState) : PickState :=
  let p0 : List Effect × Tier :=
    if roll < lightW then (LIGHT_EFFECTS, Tier.light)
    else if roll < mediumThreshold then (MEDIUM_EFFECTS, Tier.medium)
    else (HEAVY_EFFECTS, Tier.heavy)
  let p1 : List Effect × Tier :=
    if p0.2 = Tier.medium ∧ 2 ≤ s.mediumCount then (LIGHT_EFFECTS, Tier.light)
    else if p0.2 = Tier.heavy ∧ 1 ≤ s.heavyCount then
      (if s.mediumCount < 2 then (MEDIUM_EFFECTS, Tier.medium)
       else (LIGHT_EFFECTS, Tier.light))
    else p0
  pickApply p1.1 p1.2 chooseIdx s

/-- The `for _ in range(count)` loop of `pick_effects`; `i` is the
iteration index used to address the oracle streams. -/
def pickLoop (lightW mediumThreshold : ℚ) (roll : Nat → ℚ) (choose : Nat → Nat) :
    Nat → Nat → PickState → PickState
  | _, 0, s => s
  | i, Nat.succ n, s =>
      pickLoop lightW mediumThreshold roll choose (i + 1) n
        (pickStep lightW mediumThreshold (roll i) (choose i) s)

/-- `pick_effects(min_count, max_count, daypart)`.  `count` is the
`random.randint(min_count, max_count)` draw; `roll`/`choose` are the
per-iteration `random.random()`/`random.choice` oracles. -/
def pick_effects (min_count max_count : Nat) (daypart : Option String)
    (count : Nat) (roll : Nat → ℚ) (choose : Nat → Nat) : List Effect :=
  let profile := getProfile daypart
  let lightW := profile.tierWeights.1
  let mediumThreshold := lightW + profile.tierWeights.2.1
  let _ := (min_count, max_count)
  (pickLoop lightW mediumThreshold roll choose 0 count ⟨[], [], 0, 0⟩).chosen

/-! ## Clip selection (`vj_pipeline.py`, `pick_clip`) -/

/-- `pick_clip(clips, min_dur, max_dur)`.  `chooseIdx` is the
`random.choice(clips)` oracle (index modulo the list length), `u` the
`random.uniform(min_dur, max_dur)` draw, `startDraw` the
`random.uniform(0, max_start)` draw.  Returns
`(path, seek_start, use_duration, needs_loop)`. -/
def pick_clip (clips : List (String × ℚ)) (min_dur max_dur : ℚ)
    (chooseIdx : Nat) (u startDraw : ℚ) : String × ℚ × ℚ × Bool :=
  let c := clips.getD (chooseIdx % clips.length) ("", 0)
  let use_dur := u
  let _ := (min_dur, max_dur)
  if c.2 ≤ use_dur then (c.1, 0, c.2, true)
  else
    let max_start := c.2 - use_dur
    let start := if 1 < max_start then startDraw else 0
    (c.1, start, use_dur, false)

/-! ## Broadcast window (`is_on_air`, `wait_for_broadcast`) -/

/-- A wall-clock instant: day index plus seconds within the day
(`sec < 86400` for valid instants). -/
structure DT where
  day : ℕ
  sec : ℕ
deriving DecidableEq

/-- `datetime.now().hour`. -/
def DT.hour (t : DT) : ℕ := t.sec / 3600

/-- Absolute seconds since the epoch of the model. -/
def DT.toSecs (t : DT) : ℕ := t.day * 86400 + t.sec

/-- `BROADCAST_START = 10` (10am). -/
def BROADCAST_START : ℕ := 10

/-- `BROADCAST_END = 2` (2am next day). -/
def BROADCAST_END : ℕ := 2

/-- `is_on_air()`: `hour >= BROADCAST_START or hour < BROADCAST_END`. -/
def is_on_air (t : DT) : Bool :=
  decide (BROADCAST_START ≤ t.hour) || decide (t.hour < BROADCAST_END)

/-- The `sign_on` instant computed by `wait_for_broadcast`:
`now.replace(hour=10, minute=0, second=0)` and, unless
`now.hour >= BROADCAST_END`, plus one day. -/
def sign_on_target (now : DT) : DT :=
  let base : DT := ⟨now.day, BROADCAST_START * 3600⟩
  if BROADCAST_END ≤ now.hour then base else ⟨now.day + 1, BROADCAST_START * 3600⟩

/-- `wait_secs = (sign_on - now).total_seconds()`. -/
def wait_secs (now : DT) : ℤ :=
  ((sign_on_target now).toSecs : ℤ) - (now.toSecs : ℤ)

/-- The duration actually slept: `time.sleep(wait_secs)` guarded by
`if wait_secs > 0`. -/
def sleep_secs (now : DT) : ℤ :=
  if 0 < wait_secs now then wait_secs now else 0

/-- Modelled from the spec (for comparison with `sign_on_target`): the
earliest 10:00 boundary not earlier than `now`. -/
def earliest_sign_on (now : DT) : DT :=
  if now.sec ≤ BROADCAST_START * 3600 then ⟨now.day, BROADCAST_START * 3600⟩
  else ⟨now.day + 1, BROADCAST_START * 3600⟩

/-! ## Renderer command lines (`render_clip`, `render_overlay_clip`,
`render_bumper`) -/

/-- The `video` section of the configuration. -/
structure VideoCfg where
  width : ℕ
  height : ℕ
  fps : ℕ
  codec : String
  preset : String
  bitrate : String
  pix_fmt : String
deriving DecidableEq

/-- The configuration slice the Renderer reads. -/
structure Cfg where
  video : VideoCfg
  bug_path : Option String
deriving DecidableEq

/-- Decimal rendering of a numeric command-line token.  Abstraction of the
Python f-string float formats (`:.2f`, `:.3f`, plain `str`); no claim
depends on the concrete digits. -/
def fmtQ (q : ℚ) : String := toString q

/-- `_build_scale_filter(video)`: scale preserving AR, pad centered,
square sample aspect. -/
def build_scale_filter (v : VideoCfg) : String :=
  "scale=" ++ toString v.width ++ ":" ++ toString v.height ++
    ":force_original_aspect_ratio=decrease," ++
    "pad=" ++ toString v.width ++ ":" ++ toString v.height ++
    ":(ow-iw)/2:(oh-ih)/2,setsar=1"

/-- The ffmpeg argument list built by `render_clip`.  `bugExists` is the
`os.path.exists(bug_path)` outcome. -/
def render_clip_cmd (clip_path : String) (clip_start clip_dur : ℚ)
    (needs_loop : Bool) (effects : List Effect) (cfg : Cfg)
    (output_path : String) (ts_offset speed : ℚ) (bugExists : Bool) :
    List String :=
  let video := cfg.video
  let cmd0 := ["ffmpeg", "-y", "-hide_banner", "-loglevel", "warning"]
  let cmd1 := cmd0 ++ (if needs_loop then ["-stream_loop", "-1"] else [])
  let cmd2 := cmd1 ++ ["-ss", fmtQ clip_start, "-t", fmtQ clip_dur, "-i", clip_path]
  let scale := build_scale_filter video
  let effect_str := build_filter_string effects
  let vf0 := scale ++ ",setpts=" ++ fmtQ speed ++ "*PTS,fps=" ++ toString video.fps
  let vf := if effect_str = "" then vf0 else vf0 ++ "," ++ effect_str
  let cmd3 :=
    match cfg.bug_path with
    | some bug =>
        if bugExists then
          cmd2 ++ ["-i", bug] ++
            ["-filter_complex",
             "[0:v]" ++ vf ++ "[vid];[1:v]colorchannelmixer=aa=0.5[bug];" ++
               "[vid][bug]overlay=W-w-45:H-h-40[out]",
             "-map", "[out]"]
        else cmd2 ++ ["-vf", vf]
    | none => cmd2 ++ ["-vf", vf]
  cmd3 ++
    ["-an", "-c:v", video.codec, "-preset", video.preset, "-b:v", video.bitrate] ++
    ["-g", toString (video.fps * 4)] ++
    ["-pix_fmt", video.pix_fmt, "-output_ts_offset", fmtQ ts_offset,
     "-f", "mpegts", output_path]

/-- The ffmpeg argument list built by `render_overlay_clip`. -/
def render_overlay_clip_cmd (clip1_path : String) (clip1_start : ℚ)
    (clip2_path : String) (clip2_start clip_dur : ℚ) (effects : List Effect)
    (blend_mode : String) (cfg : Cfg) (output_path : String)
    (ts_offset speed : ℚ) (bugExists : Bool) : List String :=
  let video := cfg.video
  let scale := build_scale_filter video
  let effect_str := build_filter_string effects
  let base0 := scale ++ ",setpts=" ++ fmtQ speed ++ "*PTS,fps=" ++ toString video.fps
  let base_filters := if effect_str = "" then base0 else base0 ++ "," ++ effect_str
  let top_filters := scale ++ ",setpts=" ++ fmtQ speed ++ "*PTS,fps=" ++ toString video.fps
  let hasBug := match cfg.bug_path with
    | some _ => bugExists
    | none => false
  let filter_complex :=
    if hasBug then
      "[0:v]" ++ base_filters ++ "[base];[1:v]" ++ top_filters ++ "[top];" ++
        "[base][top]blend=all_mode=" ++ blend_mode ++ "[blended];" ++
        "[2:v]colorchannelmixer=aa=0.5[bug];[blended][bug]overlay=W-w-45:H-h-40[out]"
    else
      "[0:v]" ++ base_filters ++ "[base];[1:v]" ++ top_filters ++ "[top];" ++
        "[base][top]blend=all_mode=" ++ blend_mode ++ "[out]"
  let cmd0 := ["ffmpeg", "-y", "-hide_banner", "-loglevel", "warning",
               "-ss", fmtQ clip1_start, "-t", fmtQ clip_dur, "-i", clip1_path,
               "-ss", fmtQ clip2_start, "-t", fmtQ clip_dur, "-i", clip2_path]
  let cmd1 := cmd0 ++
    (if hasBug then
      (match cfg.bug_path with
       | some bug => ["-i", bug]
       | none => [])
     else [])
  cmd1 ++
    ["-filter_complex", filter_complex, "-map", "[out]", "-an",
     "-c:v", video.codec, "-preset", video.preset, "-b:v", video.bitrate,
     "-pix_fmt", video.pix_fmt, "-output_ts_offset", fmtQ ts_offset,
     "-f", "mpegts", output_path]

/-- The ffmpeg argument list built by `render_bumper` (scale + fps only,
no effects, no logo). -/
def render_bumper_cmd (bumper_path : String) (cfg : Cfg)
    (output_path : String) (ts_offset : ℚ) : List String :=
  let video := cfg.video
  ["ffmpeg", "-y", "-hide_banner", "-loglevel", "warning", "-i", bumper_path] ++
    ["-vf", build_scale_filter video ++ ",fps=" ++ toString video.fps] ++
    ["-an", "-c:v", video.codec, "-preset", video.preset, "-b:v", video.bitrate] ++
    ["-g", toString (video.fps * 4)] ++
    ["-pix_fmt", video.pix_fmt, "-output_ts_offset", fmtQ ts_offset,
     "-f", "mpegts", output_path]

/-! ## Render subprocess outcome and failure cleanup -/

/-- Outcome of `subprocess.run` of a render: normal exit with a return
code, a timeout (`TimeoutExpired`), or any other exception. -/
inductive ProcOutcome where
  | exit (rc : ℤ)
  | timeout
  | exc
deriving DecidableEq

/-- A render attempt reports success exactly on return code 0. -/
def isSuccess : ProcOutcome → Bool
  | .exit 0 => true
  | _ => false

/-- The shared tail of `render_clip` / `render_overlay_clip` /
`render_bumper`: run the encoder (the subprocess may or may not have
written the output file, `wrote`); on a non-zero return code, a timeout or
an exception, attempt `os.unlink` on any partial output — a best-effort
deletion whose `OSError` is swallowed by `pass` (`unlinkOk` is the outcome
of that attempt; on failure the partial file survives) — and return
failure; otherwise return success.  The staging directory is modelled as
the list of file names present. -/
def finishRender (fs : List String) (output_path : String)
    (oc : ProcOutcome) (wrote : Bool) (unlinkOk : Bool) : Bool × List String :=
  let fs1 := if wrote then output_path :: fs else fs
  if isSuccess oc then (true, fs1)
  else
    (false,
     if unlinkOk then fs1.filter (fun p => decide (p ≠ output_path)) else fs1)

/-! ## The fragment-producing part of a main-loop iteration
(`main`, lines 882-936: bumper check, clip pick, render, PTS accounting) -/

/-- One render attempt observed during an iteration: which path produced
it, whether the encoder succeeded, and the post-speed duration credited to
`cumulative_ts` on success. -/
structure RenderEv where
  isBumper : Bool
  isOverlay : Bool
  ok : Bool
  dur : ℚ
deriving DecidableEq

/-- The Conductor state the fragment section reads and writes.  `staged`
is the number of `.ts` files in the staging directory. -/
structure LoopState where
  lastBumperTime : ℚ
  cumulative_ts : ℚ
  seq : ℕ
  staged : ℕ
deriving DecidableEq

/-- Static mixing inputs of an iteration: the bumper set, the active clip
set for the current daypart, the configured clip duration bounds and the
bumper cadence. -/
structure MixCfg where
  bumperFiles : List (String × ℚ)
  clips : List (String × ℚ)
  clipMin : ℚ
  clipMax : ℚ
  minIntervalMinutes : ℚ
deriving DecidableEq

/-- Per-iteration nondeterminism: the two `time.time()` reads, the random
draws, and the encoder outcomes of the (up to two) render attempts.
The second `pick_clip`, `pick_effects`, `pick_blend_mode` and
`pick_overlay_effects` draws of the overlay path only shape command-line
text and are not tracked here. -/
structure IterOracle where
  now : ℚ
  nowAfterBumper : ℚ
  bumperIdx : ℕ
  bumperOutcome : ProcOutcome
  speed : ℚ
  clipIdx : ℕ
  useDur : ℚ
  startDraw : ℚ
  overlayRoll : Bool
  clipOutcome : ProcOutcome
deriving DecidableEq

/-- The bumper-due test of the main loop:
`bumper_files and last_bumper_time > 0 and
 (now - last_bumper_time) >= min_interval_minutes * 60`. -/
def bumperDue (m : MixCfg) (s : LoopState) (now : ℚ) : Bool :=
  !m.bumperFiles.isEmpty && decide (0 < s.lastBumperTime) &&
    decide (m.minIntervalMinutes * 60 ≤ now - s.lastBumperTime)

/-- The fragment-producing tail of one main-loop iteration.  The bumper
branch (lines 883-895) has no `else` tying it to the clip branch: after a
bumper attempt, control falls through to the clip selection and render
(lines 897-936).  Returns the render attempts in order together with the
updated state. -/
def iterFragments (m : MixCfg) (s : LoopState) (o : IterOracle) :
    List RenderEv × LoopState :=
  let bumperPart : List RenderEv × LoopState :=
    if bumperDue m s o.now then
      let bd := (m.bumperFiles.getD (o.bumperIdx % m.bumperFiles.length) ("", 0)).2
      let s' := { s with seq := s.seq + 1 }
      if isSuccess o.bumperOutcome then
        ([⟨true, false, true, bd⟩],
         { s' with cumulative_ts := s'.cumulative_ts + bd
                   lastBumperTime := o.nowAfterBumper
                   staged := s'.staged + 1 })
      else ([⟨true, false, false, bd⟩], s')
    else if s.lastBumperTime = 0 then
      ([], { s with lastBumperTime := o.now })
    else ([], s)
  let evs1 := bumperPart.1
  let s1 := bumperPart.2
  let pc := pick_clip m.clips m.clipMin m.clipMax o.clipIdx o.useDur o.startDraw
  let clipDur := pc.2.2.1
  let s2 := { s1 with seq := s1.seq + 1 }
  let outputDur := clipDur * o.speed
  let isOv := o.overlayRoll && decide (2 ≤ m.clips.length)
  if isSuccess o.clipOutcome then
    (evs1 ++ [⟨false, isOv, true, outputDur⟩],
     { s2 with cumulative_ts := s2.cumulative_ts + outputDur
               staged := s2.staged + 1 })
  else (evs1 ++ [⟨false, isOv, false, outputDur⟩], s2)

/-- `MAX_STAGING_FILES = 30`. -/
def MAX_STAGING_FILES : ℕ := 30

/-- One pass of the main loop restricted to its staging-count effect: the
back-pressure guard (`while count_staging_files >= MAX_STAGING_FILES:
sleep(5)`) blocks rendering while the count is at the cap, otherwise the
iteration renders; the concurrent Feeder deletes `feederDel` staged files
(deletions only remove files, modelled at the end of the pass). -/
def loopStep (m : MixCfg) (s : LoopState) (o : IterOracle) (feederDel : ℕ) :
    LoopState :=
  if MAX_STAGING_FILES ≤ s.staged then
    { s with staged := s.staged - feederDel }
  else
    let s' := (iterFragments m s o).2
    { s' with staged := s'.staged - feederDel }

/-! ## Watchdog recovery (`recover_streamer`, lines 706-777) -/

/-- Pipeline state touched by recovery. -/
structure PState where
  streamerProc : Bool
  musicRunning : Bool
  cumulative_ts : ℚ
  prebuffer : List String
  lastFeed : ℚ
  fifoExists : Bool
  stagingFiles : List String
  feedQueue : List String
deriving DecidableEq

/-- Failure nondeterminism inside `recover_streamer`: `earlyFail` models
an exception raised in a cleanup sub-step before the FIFO recreation is
reached (the kill/stop/drain section); `mkfifoFail` models `os.mkfifo`
raising in the `try` body; `mkfifoRetryFail` models the `os.mkfifo` inside
the `except` handler raising (that `OSError` is swallowed by `pass`). -/
structure RecoverOracle where
  earlyFail : Bool
  mkfifoFail : Bool
  mkfifoRetryFail : Bool
deriving DecidableEq

/-- `recover_streamer()`: kill the streamer, stop music, drain the feed
queue, delete staging files, recreate the FIFO — all inside a `try` whose
handler sets `streamer_proc = None` and recreates the FIFO only if it is
missing; then unconditionally reset `cumulative_ts`, `prebuffer` and the
heartbeat. -/
def recover_streamer (s : PState) (now : ℚ) (o : RecoverOracle) : PState :=
  let sTry :=
    if o.earlyFail then
      -- An exception before the queue/staging/FIFO cleanup: the handler
      -- clears the streamer handle and recreates the FIFO if missing.
      let s1 := { s with streamerProc := false }
      if s1.fifoExists then s1
      else if o.mkfifoRetryFail then s1
      else { s1 with fifoExists := true }
    else
      let s1 := { s with streamerProc := false, musicRunning := false,
                         feedQueue := [], stagingFiles := [] }
      let s2 := { s1 with fifoExists := false }  -- os.unlink(audio_fifo_path)
      if o.mkfifoFail then
        -- os.mkfifo raised; handler: FIFO is missing, try to recreate.
        if o.mkfifoRetryFail then s2 else { s2 with fifoExists := true }
      else { s2 with fifoExists := true }
  { sTry with cumulative_ts := 0, prebuffer := [], lastFeed := now }

/-! ## Pre-buffer / live transition (`queue_clip`,
`start_streamer_and_flush`, lines 779-814) -/

/-- Observable actions of the pre-buffer / live transition. -/
inductive CAct where
  | addPrebuffer (p : String)
  | startMusic
  | sleepHalf
  | spawnStreamer
  | resetHeartbeat
  | enqueue (p : String)
deriving DecidableEq

/-- Conductor state seen by `queue_clip`, with an action trace. -/
structure CState where
  streamer : Bool
  prebuffer : List String
  feedQueue : List String
  trace : List CAct
deriving DecidableEq

/-- `prebuffer_size = 4`. -/
def prebuffer_size : ℕ := 4

/-- `start_streamer_and_flush()`: start the music thread, sleep 0.5 s,
spawn the streamer, reset the watchdog heartbeat, push every pre-buffered
fragment to the feeder queue in order, clear the pre-buffer. -/
def start_streamer_and_flush (s : CState) : CState :=
  let s1 := { s with
    streamer := true
    trace := s.trace ++ [CAct.startMusic, CAct.sleepHalf, CAct.spawnStreamer,
                         CAct.resetHeartbeat] }
  { s1 with
    feedQueue := s1.feedQueue ++ s1.prebuffer
    trace := s1.trace ++ s1.prebuffer.map CAct.enqueue
    prebuffer := [] }

/-- `queue_clip(ts_path)`: while no streamer is running, append to the
pre-buffer and flush once it reaches `prebuffer_size`; with a live
streamer, enqueue for the feeder.  (The `queue.Full` recovery branch of
the live path is not exercised here.) -/
def queue_clip (s : CState) (p : String) : CState :=
  if s.streamer then
    { s with feedQueue := s.feedQueue ++ [p], trace := s.trace ++ [CAct.enqueue p] }
  else
    let s1 := { s with prebuffer := s.prebuffer ++ [p],
                       trace := s.trace ++ [CAct.addPrebuffer p] }
    if prebuffer_size ≤ s1.prebuffer.length then start_streamer_and_flush s1
    else s1

/-- Conductor startup state: no streamer, empty pre-buffer and queue. -/
def initCState : CState := ⟨false, [], [], []⟩

/-! ## Music worker (`music_worker`, lines 239-325) -/

/-- Scheduling events observed by the music worker between FIFO writes:
the stop signal; an empty playlist; a daypart change between tracks; a
track ending (decoder EOF — reached both when the track finishes and when
the decoder dies, since either way `proc.stdout.read` returns empty); a
`BrokenPipeError`/`OSError` raised by a FIFO write. -/
inductive MEv where
  | stopSignal
  | noMusic
  | daypartChange
  | trackEnd
  | fifoBroken
deriving DecidableEq

/-- Actions the worker performs. -/
inductive MAct where
  | openFifo
  | sleep30
  | reshuffle
  | playTrack
  | killDecoder
  | closeFifo
deriving DecidableEq

/-- The supervision loop of `music_worker` over a finite schedule of
events.  An exhausted schedule behaves like the stop signal.  `fifoBroken`
kills the decoder and returns — nothing after it in the schedule is ever
processed; `trackEnd` merely advances to the next track. -/
def musicGo : List MEv → List MAct
  | [] => []
  | MEv.stopSignal :: _ => []
  | MEv.noMusic :: rest => MAct.sleep30 :: musicGo rest
  | MEv.daypartChange :: rest => MAct.reshuffle :: musicGo rest
  | MEv.trackEnd :: rest => MAct.playTrack :: musicGo rest
  | MEv.fifoBroken :: _ => [MAct.killDecoder]

/-- `music_worker(...)`: open the FIFO (if the open fails the worker
returns without ever holding the FIFO); run the supervision loop; the
`finally` block closes the FIFO exactly once, on the way out. -/
def music_worker (openOk : Bool) (evs : List MEv) : List MAct :=
  if openOk then MAct.openFifo :: (musicGo evs ++ [MAct.closeFifo]) else []

/-! ## Helper lemmas -/

/-- A `getD` at an index reduced modulo the length picks an element of a
non-empty list. -/
theorem getD_mod_mem {α : Type} (l : List α) (i : ℕ) (d : α) (h : l ≠ []) :
    l.getD (i % l.length) d ∈ l := by
  have hl : 0 < l.length := List.length_pos.mpr h
  have hm : i % l.length < l.length := Nat.mod_lt _ hl
  rw [List.getD_eq_getElem l d hm]
  exact List.getElem_mem hm

/-! ## C9 — sign-on boundary computation -/

/-- C9 counterexample: the claim quantifies over every invocation time, but
at day 0, 01:00 (an instant inside the broadcast window) the code anchors
the sign-on on the NEXT day's 10:00 — not the earliest 10:00 boundary not
earlier than now — and would sleep 118800 s instead of the minimal
non-negative 32400 s. -/
theorem c9_counterexample :
    sign_on_target ⟨0, 3600⟩ ≠ earliest_sign_on ⟨0, 3600⟩ ∧
    sleep_secs ⟨0, 3600⟩ = 118800 ∧
    ((earliest_sign_on ⟨0, 3600⟩).toSecs : ℤ) - ((⟨0, 3600⟩ : DT).toSecs : ℤ) = 32400 := by
  decide

/-- C9 (amended): at every valid instant at which `is_on_air` is false —
the only instants at which `wait_for_broadcast` is invoked by the main
loop — the computed sign-on equals the earliest 10:00 boundary not earlier
than now, and the slept duration is the minimal non-negative duration to
that boundary. -/
theorem c9_sign_on_correct_when_off_air (t : DT) (hsec : t.sec < 86400)
    (hoff : is_on_air t = false) :
    sign_on_target t = earliest_sign_on t ∧
    sleep_secs t = ((earliest_sign_on t).toSecs : ℤ) - (t.toSecs : ℤ) ∧
    0 ≤ sleep_secs t := by
  have hoff' : ¬ BROADCAST_START ≤ t.hour ∧ ¬ t.hour < BROADCAST_END := by
    simpa [is_on_air] using hoff
  have hhour2 : BROADCAST_END ≤ t.hour := Nat.le_of_not_lt hoff'.2
  have hhour10 : t.hour < BROADCAST_START := Nat.lt_of_not_le hoff'.1
  have hsec36 : t.sec < 36000 := by
    unfold DT.hour BROADCAST_START at hhour10
    omega
  have htar : sign_on_target t = ⟨t.day, BROADCAST_START * 3600⟩ := by
    unfold sign_on_target
    rw [if_pos hhour2]
  have hear : earliest_sign_on t = ⟨t.day, BROADCAST_START * 3600⟩ := by
    unfold earliest_sign_on BROADCAST_START
    rw [if_pos (by omega)]
  have hwait : wait_secs t = 36000 - (t.sec : ℤ) := by
    unfold wait_secs
    rw [htar]
    unfold DT.toSecs BROADCAST_START
    push_cast
    ring
  refine ⟨htar.trans hear.symm, ?_, ?_⟩
  · unfold sleep_secs
    rw [hwait, if_pos (by omega)]
    rw [hear]
    unfold DT.toSecs BROADCAST_START
    push_cast
    ring
  · unfold sleep_secs
    split <;> omega

/-- C9 witness: a concrete off-air instant (day 3, 03:00). -/
theorem c9_sign_on_correct_when_off_air_witness :
    sign_on_target ⟨3, 10800⟩ = earliest_sign_on ⟨3, 10800⟩ ∧
    sleep_secs ⟨3, 10800⟩ =
      ((earliest_sign_on ⟨3, 10800⟩).toSecs : ℤ) - ((⟨3, 10800⟩ : DT).toSecs : ℤ) ∧
    0 ≤ sleep_secs ⟨3, 10800⟩ :=
  c9_sign_on_correct_when_off_air ⟨3, 10800⟩ (by decide) (by decide)

/-! ## C10 — `pick_clip` duration capping -/

/-- C10: for a non-empty clip list and `min_dur ≤ max_dur`, with the
`uniform` contracts as hypotheses: the loop flag is set exactly when the
chosen clip's duration is at most the drawn target duration; in the loop
case the use duration is the clip duration; the use duration never exceeds
the clip duration; when not looping, seek start plus use duration stays
within the clip, and the seek start is 0 whenever the slack is at most 1
second. -/
theorem c10_pick_clip_caps (clips : List (String × ℚ)) (min_dur max_dur : ℚ)
    (idx : ℕ) (u s : ℚ)
    (hne : clips ≠ []) (hmm : min_dur ≤ max_dur)
    (hu1 : min_dur ≤ u) (hu2 : u ≤ max_dur)
    (hs : 1 < (clips.getD (idx % clips.length) ("", 0)).2 - u →
          0 ≤ s ∧ s ≤ (clips.getD (idx % clips.length) ("", 0)).2 - u) :
    ((pick_clip clips min_dur max_dur idx u s).2.2.2 = true ↔
       (clips.getD (idx % clips.length) ("", 0)).2 ≤ u) ∧
    ((pick_clip clips min_dur max_dur idx u s).2.2.2 = true →
       (pick_clip clips min_dur max_dur idx u s).2.2.1 =
         (clips.getD (idx % clips.length) ("", 0)).2) ∧
    (pick_clip clips min_dur max_dur idx u s).2.2.1 ≤
      (clips.getD (idx % clips.length) ("", 0)).2 ∧
    ((pick_clip clips min_dur max_dur idx u s).2.2.2 = false →
       (pick_clip clips min_dur max_dur idx u s).2.1 +
           (pick_clip clips min_dur max_dur idx u s).2.2.1 ≤
         (clips.getD (idx % clips.length) ("", 0)).2 ∧
       ((clips.getD (idx % clips.length) ("", 0)).2 -
             (pick_clip clips min_dur max_dur idx u s).2.2.1 ≤ 1 →
          (pick_clip clips min_dur max_dur idx u s).2.1 = 0)) := by
  set c := clips.getD (idx % clips.length) ("", 0) with hc
  unfold pick_clip
  rw [← hc]
  by_cases hloop : c.2 ≤ u
  · rw [if_pos hloop]
    refine ⟨by simp [hloop], by simp, le_refl _, by simp⟩
  · rw [if_neg hloop]
    dsimp only
    have hu : u < c.2 := lt_of_not_le hloop
    by_cases hslack : 1 < c.2 - u
    · rw [if_pos hslack]
      obtain ⟨hs0, hs1⟩ := hs hslack
      refine ⟨by simp [hloop], by simp, le_of_lt hu, ?_⟩
      intro _
      constructor
      · linarith
      · intro habs
        linarith
    · rw [if_neg hslack]
      refine ⟨by simp [hloop], by simp, le_of_lt hu, ?_⟩
      intro _
      constructor
      · linarith
      · intro _
        rfl

/-- C10 witness: one clip of 10 s, target drawn 3 s, seek drawn 4 s. -/
theorem c10_pick_clip_caps_witness :
    ((pick_clip [("a", 10)] 2 5 0 3 4).2.2.2 = true ↔
       (([("a", (10 : ℚ))].getD (0 % [("a", (10 : ℚ))].length) ("", 0)).2 ≤ 3)) ∧
    ((pick_clip [("a", 10)] 2 5 0 3 4).2.2.2 = true →
       (pick_clip [("a", 10)] 2 5 0 3 4).2.2.1 =
         ([("a", (10 : ℚ))].getD (0 % [("a", (10 : ℚ))].length) ("", 0)).2) ∧
    (pick_clip [("a", 10)] 2 5 0 3 4).2.2.1 ≤
      ([("a", (10 : ℚ))].getD (0 % [("a", (10 : ℚ))].length) ("", 0)).2 ∧
    ((pick_clip [("a", 10)] 2 5 0 3 4).2.2.2 = false →
       (pick_clip [("a", 10)] 2 5 0 3 4).2.1 +
           (pick_clip [("a", 10)] 2 5 0 3 4).2.2.1 ≤
         ([("a", (10 : ℚ))].getD (0 % [("a", (10 : ℚ))].length) ("", 0)).2 ∧
       (([("a", (10 : ℚ))].getD (0 % [("a", (10 : ℚ))].length) ("", 0)).2 -
             (pick_clip [("a", 10)] 2 5 0 3 4).2.2.1 ≤ 1 →
          (pick_clip [("a", 10)] 2 5 0 3 4).2.1 = 0)) :=
  c10_pick_clip_caps [("a", 10)] 2 5 0 3 4 (by decide) (by norm_num)
    (by norm_num) (by norm_num) (by norm_num)

/-! ## C5 — recovery postconditions -/

/-- A concrete pre-recovery state used by the C5 theorems. -/
def c5State : PState := ⟨true, true, 5, ["x"], 0, true, ["a"], ["b"]⟩

/-- C5 counterexample: when `os.mkfifo` in the `try` body raises and the
handler's `os.mkfifo` also raises (both `OSError`s the code swallows),
recovery completes without the audio FIFO existing, so the claimed
conjunction fails. -/
theorem c5_counterexample :
    ¬ ((recover_streamer c5State 1 ⟨false, true, true⟩).cumulative_ts = 0 ∧
       (recover_streamer c5State 1 ⟨false, true, true⟩).prebuffer = [] ∧
       (recover_streamer c5State 1 ⟨false, true, true⟩).lastFeed = 1 ∧
       (recover_streamer c5State 1 ⟨false, true, true⟩).streamerProc = false ∧
       (recover_streamer c5State 1 ⟨false, true, true⟩).fifoExists = true) := by
  decide

/-- C5 (amended): after every call to `recover_streamer` — including calls
in which a cleanup sub-step raises — `cumulative_ts = 0`, the pre-buffer
is empty, the heartbeat equals now, and the encoder handle is cleared; the
audio FIFO is guaranteed to exist whenever the recreation attempted inside
the exception handler does not itself fail, and in particular whenever no
sub-step raises at all. -/
theorem c5_recover_resets (s : PState) (now : ℚ) (o : RecoverOracle) :
    (recover_streamer s now o).cumulative_ts = 0 ∧
    (recover_streamer s now o).prebuffer = [] ∧
    (recover_streamer s now o).lastFeed = now ∧
    (recover_streamer s now o).streamerProc = false ∧
    (o.mkfifoRetryFail = false → (recover_streamer s now o).fifoExists = true) ∧
    (o.earlyFail = false → o.mkfifoFail = false →
       (recover_streamer s now o).fifoExists = true) := by
  rcases o with ⟨ef, mf, mrf⟩
  cases ef <;> cases mf <;> cases mrf <;>
    cases hfe : s.fifoExists <;>
      simp [recover_streamer, hfe]

/-- C5 witness: the clean-recovery oracle on the concrete state. -/
theorem c5_recover_resets_witness :
    (recover_streamer c5State 1 ⟨false, false, false⟩).cumulative_ts = 0 ∧
    (recover_streamer c5State 1 ⟨false, false, false⟩).prebuffer = [] ∧
    (recover_streamer c5State 1 ⟨false, false, false⟩).lastFeed = 1 ∧
    (recover_streamer c5State 1 ⟨false, false, false⟩).streamerProc = false ∧
    ((⟨false, false, false⟩ : RecoverOracle).mkfifoRetryFail = false →
       (recover_streamer c5State 1 ⟨false, false, false⟩).fifoExists = true) ∧
    ((⟨false, false, false⟩ : RecoverOracle).earlyFail = false →
       (⟨false, false, false⟩ : RecoverOracle).mkfifoFail = false →
         (recover_streamer c5State 1 ⟨false, false, false⟩).fifoExists = true) :=
  c5_recover_resets c5State 1 ⟨false, false, false⟩

/-! ## C7 — music worker FIFO discipline -/

/-- The supervision loop itself never closes the FIFO: no `closeFifo`
action between tracks or across reshuffles. -/
theorem musicGo_no_close (evs : List MEv) :
    (musicGo evs).count MAct.closeFifo = 0 := by
  induction evs with
  | nil => rfl
  | cons e rest ih =>
      cases e <;> simp [musicGo, ih, List.count_cons]

/-- C7: over every schedule, the worker that connected to the FIFO closes
it exactly once and only as its final action (never between tracks or
reshuffles); after a broken-pipe/OS error on a FIFO write nothing further
in the schedule is processed (the worker terminates, killing the decoder);
a decoder end merely advances to the next scheduled event; and a worker
whose FIFO open failed performs nothing. -/
theorem c7_music_worker_fifo (evs rest rest' : List MEv) :
    (musicGo evs).count MAct.closeFifo = 0 ∧
    (music_worker true evs).count MAct.closeFifo = 1 ∧
    (music_worker true evs).getLast? = some MAct.closeFifo ∧
    musicGo (MEv.fifoBroken :: rest) = musicGo (MEv.fifoBroken :: rest') ∧
    musicGo (MEv.trackEnd :: rest) = MAct.playTrack :: musicGo rest ∧
    music_worker false evs = [] := by
  refine ⟨musicGo_no_close evs, ?_, ?_, rfl, rfl, rfl⟩
  · simp [music_worker, List.count_cons, List.count_append, musicGo_no_close]
  · show (MAct.openFifo :: (musicGo evs ++ [MAct.closeFifo])).getLast? = some MAct.closeFifo
    rw [← List.cons_append, List.getLast?_concat]

/-! ## C6 — pre-buffer / live transition -/

/-- While fewer than `prebuffer_size` fragments have been queued from the
startup state, `queue_clip` only appends to the pre-buffer: no streamer,
no music, no feeder traffic. -/
theorem queue_clip_prebuffer_phase (l : List String) (s : CState)
    (hst : s.streamer = false)
    (hlen : s.prebuffer.length + l.length < prebuffer_size) :
    l.foldl queue_clip s =
      { s with prebuffer := s.prebuffer ++ l,
               trace := s.trace ++ l.map CAct.addPrebuffer } := by
  induction l generalizing s with
  | nil => simp
  | cons x xs ih =>
      simp only [List.foldl_cons]
      have hq : queue_clip s x =
          { s with prebuffer := s.prebuffer ++ [x],
                   trace := s.trace ++ [CAct.addPrebuffer x] } := by
        unfold queue_clip
        rw [hst]
        simp only [Bool.false_eq_true, if_false]
        rw [if_neg]
        simp only [List.length_append, List.length_cons, List.length_nil]
        simp only [List.length_cons] at hlen
        omega
      rw [hq, ih]
      · simp
      · simpa using hst
      · simp only [List.length_append, List.length_cons, List.length_nil]
        simp only [List.length_cons] at hlen
        omega

/-- C6: the encoder is not spawned before four fragments are rendered (for
any shorter sequence of queued fragments the streamer stays down and the
trace has no spawn); queueing the fourth pre-buffered fragment starts the
music worker, sleeps 500 ms, spawns the encoder, resets the heartbeat and
pushes the four fragments to the feeder queue in production order, leaving
the pre-buffer empty. -/
theorem c6_prebuffer_transition (a b c d : String) (l : List String)
    (hl : l.length < prebuffer_size) :
    (l.foldl queue_clip initCState).streamer = false ∧
    CAct.spawnStreamer ∉ (l.foldl queue_clip initCState).trace ∧
    (queue_clip (queue_clip (queue_clip initCState a) b) c).streamer = false ∧
    (queue_clip (queue_clip (queue_clip initCState a) b) c).feedQueue = [] ∧
    (queue_clip (queue_clip (queue_clip (queue_clip initCState a) b) c) d).streamer = true ∧
    (queue_clip (queue_clip (queue_clip (queue_clip initCState a) b) c) d).prebuffer = [] ∧
    (queue_clip (queue_clip (queue_clip (queue_clip initCState a) b) c) d).feedQueue =
      [a, b, c, d] ∧
    (queue_clip (queue_clip (queue_clip (queue_clip initCState a) b) c) d).trace =
      [CAct.addPrebuffer a, CAct.addPrebuffer b, CAct.addPrebuffer c,
       CAct.addPrebuffer d, CAct.startMusic, CAct.sleepHalf, CAct.spawnStreamer,
       CAct.resetHeartbeat, CAct.enqueue a, CAct.enqueue b, CAct.enqueue c,
       CAct.enqueue d] := by
  have hphase := queue_clip_prebuffer_phase l initCState rfl
    (by simpa [initCState] using hl)
  refine ⟨?_, ?_, ?_, ?_, ?_, ?_, ?_, ?_⟩
  · rw [hphase]
    rfl
  · rw [hphase]
    simp [initCState]
  all_goals
    simp [queue_clip, start_streamer_and_flush, initCState, prebuffer_size]

/-- C6 witness: three then a fourth concrete fragment. -/
theorem c6_prebuffer_transition_witness :
    (["x", "y", "z"].foldl queue_clip initCState).streamer = false ∧
    CAct.spawnStreamer ∉ (["x", "y", "z"].foldl queue_clip initCState).trace ∧
    (queue_clip (queue_clip (queue_clip initCState "f1") "f2") "f3").streamer = false ∧
    (queue_clip (queue_clip (queue_clip initCState "f1") "f2") "f3").feedQueue = [] ∧
    (queue_clip (queue_clip (queue_clip (queue_clip initCState "f1") "f2") "f3") "f4").streamer = true ∧
    (queue_clip (queue_clip (queue_clip (queue_clip initCState "f1") "f2") "f3") "f4").prebuffer = [] ∧
    (queue_clip (queue_clip (queue_clip (queue_clip initCState "f1") "f2") "f3") "f4").feedQueue =
      ["f1", "f2", "f3", "f4"] ∧
    (queue_clip (queue_clip (queue_clip (queue_clip initCState "f1") "f2") "f3") "f4").trace =
      [CAct.addPrebuffer "f1", CAct.addPrebuffer "f2", CAct.addPrebuffer "f3",
       CAct.addPrebuffer "f4", CAct.startMusic, CAct.sleepHalf, CAct.spawnStreamer,
       CAct.resetHeartbeat, CAct.enqueue "f1", CAct.enqueue "f2", CAct.enqueue "f3",
       CAct.enqueue "f4"] :=
  c6_prebuffer_transition "f1" "f2" "f3" "f4" ["x", "y", "z"] (by decide)

/-! ## C2 — keyframe interval -/

/-- Concrete configuration used by the C2 statements. -/
def c2Cfg : Cfg := ⟨⟨1920, 1080, 30, "h264_nvenc", "p5", "6M", "yuv420p"⟩, none⟩

/-- C2 counterexample: the overlay render invocation carries no `-g`
(keyframe interval) flag at all, so not every render operation passes
`4 × fps` to the encoder. -/
theorem c2_counterexample :
    "-g" ∉ render_overlay_clip_cmd "clip1.mp4" 0 "clip2.mp4" 0 7 [] "screen"
      c2Cfg "out.ts" 0 1 false := by
  decide

/-- C2 (amended): the single-clip and bumper render invocations always pass
`-g` with value `4 × fps`; the overlay render passes no keyframe interval
(witnessed on the concrete configuration). -/
theorem c2_keyframe_interval (clip_path : String) (clip_start clip_dur : ℚ)
    (needs_loop : Bool) (effects : List Effect) (cfg : Cfg)
    (output_path : String) (ts_offset speed : ℚ) (bugExists : Bool)
    (bumper_path bumper_out : String) (bumper_ts : ℚ) :
    ["-g", toString (cfg.video.fps * 4)] <:+:
      render_clip_cmd clip_path clip_start clip_dur needs_loop effects cfg
        output_path ts_offset speed bugExists ∧
    ["-g", toString (cfg.video.fps * 4)] <:+:
      render_bumper_cmd bumper_path cfg bumper_out bumper_ts ∧
    "-g" ∉ render_overlay_clip_cmd "clip1.mp4" 0 "clip2.mp4" 0 7 [] "screen"
      c2Cfg "out.ts" 0 1 false := by
  refine ⟨?_, ?_, c2_counterexample⟩
  · unfold render_clip_cmd
    dsimp only
    exact List.infix_append _ _ _
  · unfold render_bumper_cmd
    dsimp only
    exact List.infix_append _ _ _

/-! ## C1 — fragments rendered per iteration -/

/-- Mixing inputs used by the C1 counterexample: one bumper, one clip,
10-minute bumper cadence. -/
def c1Mix : MixCfg := ⟨[("bumper.mp4", 5)], [("clip.mp4", 20)], 5, 10, 10⟩

/-- State of the C1 counterexample: a bumper was last rendered at t = 1. -/
def c1State : LoopState := ⟨1, 0, 0, 0⟩

/-- Oracle of the C1 counterexample: bumper due (now = 10000), both
renders succeed. -/
def c1Oracle : IterOracle := ⟨10000, 10001, 0, .exit 0, 1, 0, 7, 2, false, .exit 0⟩

/-- C1 counterexample: in an iteration in which a bumper is due and is
rendered, the clip branch still runs — two fragments are rendered in one
main-loop iteration (the bumper first, then a clip), refuting "at most one
fragment is rendered" and "only otherwise is a clip rendered". -/
theorem c1_counterexample :
    bumperDue c1Mix c1State c1Oracle.now = true ∧
    ((iterFragments c1Mix c1State c1Oracle).1.countP RenderEv.ok) = 2 ∧
    ((iterFragments c1Mix c1State c1Oracle).1.map RenderEv.isBumper) = [true, false] := by
  norm_num [bumperDue, iterFragments, pick_clip, isSuccess, c1Mix, c1State,
    c1Oracle, List.countP, List.countP.go]

/-- C1 (amended): every main-loop iteration attempts exactly one clip
(single or overlay) render; when bumpers exist and the cadence has
elapsed, a bumper render additionally precedes it — so an iteration
produces up to two fragments, the bumper first, and the clip render is not
suppressed by the bumper branch. -/
theorem c1_bumper_then_clip (m : MixCfg) (s : LoopState) (o : IterOracle) :
    (bumperDue m s o.now = true →
      ((iterFragments m s o).1.map RenderEv.isBumper) = [true, false]) ∧
    (bumperDue m s o.now = false →
      ((iterFragments m s o).1.map RenderEv.isBumper) = [false]) := by
  by_cases hz : s.lastBumperTime = 0 <;>
    cases hbo : isSuccess o.bumperOutcome <;>
      cases hco : isSuccess o.clipOutcome <;>
        constructor <;> intro h <;>
          simp [iterFragments, h, hz, hbo, hco]

/-- C1 witness: the two branch shapes at concrete inputs. -/
theorem c1_bumper_then_clip_witness :
    (bumperDue c1Mix c1State c1Oracle.now = true →
      ((iterFragments c1Mix c1State c1Oracle).1.map RenderEv.isBumper) = [true, false]) ∧
    (bumperDue c1Mix c1State c1Oracle.now = false →
      ((iterFragments c1Mix c1State c1Oracle).1.map RenderEv.isBumper) = [false]) :=
  c1_bumper_then_clip c1Mix c1State c1Oracle

/-! ## C3 — staging back-pressure bound -/

/-- Mixing inputs of the C3 trace: one bumper, one clip, 10-minute
bumper cadence. -/
def c3Mix : MixCfg := ⟨[("bumper.mp4", 5)], [("clip.mp4", 20)], 5, 10, 10⟩

/-- First iteration oracle of the C3 trace (initialises the bumper clock). -/
def c3OracleFirst : IterOracle := ⟨1, 1, 0, .exit 0, 1, 0, 7, 2, false, .exit 0⟩

/-- Middle iteration oracle of the C3 trace (bumper not yet due). -/
def c3OracleMid : IterOracle := ⟨2, 2, 0, .exit 0, 1, 0, 7, 2, false, .exit 0⟩

/-- Final iteration oracle of the C3 trace (bumper due). -/
def c3OracleLast : IterOracle := ⟨10000, 10001, 0, .exit 0, 1, 0, 7, 2, false, .exit 0⟩

/-- The 30-iteration schedule of the C3 trace (feeder deletes nothing). -/
def c3Oracles : List IterOracle :=
  c3OracleFirst :: (List.replicate 28 c3OracleMid ++ [c3OracleLast])

/-- Running the main loop from an empty staging directory over the C3
schedule. -/
def c3Run : LoopState :=
  c3Oracles.foldl (fun st o => loopStep c3Mix st o 0) ⟨0, 0, 0, 0⟩

/-- C3 counterexample: a reachable main-loop state holds 31 staged `.ts`
files — the back-pressure guard admits an iteration at 29 staged files,
and a bumper-due iteration then renders two fragments (bumper + clip). -/
theorem c3_counterexample :
    c3Run.staged = 31 ∧ MAX_STAGING_FILES < c3Run.staged := by
  norm_num [c3Run, c3Oracles, c3OracleFirst, c3OracleMid, c3OracleLast, c3Mix,
    loopStep, iterFragments, bumperDue, pick_clip, isSuccess,
    MAX_STAGING_FILES, List.replicate, List.foldl]

/-- One iteration of the fragment section adds at most two staged files. -/
theorem iterFragments_staged_le (m : MixCfg) (s : LoopState) (o : IterOracle) :
    (iterFragments m s o).2.staged ≤ s.staged + 2 := by
  by_cases hz : s.lastBumperTime = 0 <;>
    cases hb : bumperDue m s o.now <;>
      cases hbo : isSuccess o.bumperOutcome <;>
        cases hco : isSuccess o.clipOutcome <;>
          simp [iterFragments, hz, hb, hbo, hco]

/-- One `loopStep` preserves the `MAX_STAGING_FILES + 1` staging bound. -/
theorem loopStep_staged_le (m : MixCfg) (s : LoopState) (o : IterOracle) (d : ℕ)
    (h : s.staged ≤ MAX_STAGING_FILES + 1) :
    (loopStep m s o d).staged ≤ MAX_STAGING_FILES + 1 := by
  unfold loopStep
  split
  · simp only []
    omega
  · have hit := iterFragments_staged_le m s o
    simp only []
    unfold MAX_STAGING_FILES at *
    omega

/-- C3 (amended): whenever the staging count is at the 30-file cap the
loop pass only sleeps (the count cannot grow), and from any state within
the 31-file envelope — in particular from the empty startup directory —
every reachable state of the main loop holds at most 31 staged fragments:
the guard admits a render pass only below 30, and a pass adds at most two
fragments (bumper + clip), so 31, not 30, is the tight bound. -/
theorem c3_staging_bound (m : MixCfg) (o : IterOracle) (d : ℕ)
    (ops : List (IterOracle × ℕ)) (s : LoopState)
    (hs : s.staged ≤ MAX_STAGING_FILES + 1) :
    (MAX_STAGING_FILES ≤ s.staged → (loopStep m s o d).staged ≤ s.staged) ∧
    (ops.foldl (fun st p => loopStep m st p.1 p.2) s).staged ≤
      MAX_STAGING_FILES + 1 := by
  constructor
  · intro hge
    unfold loopStep
    rw [if_pos hge]
    simp only []
    omega
  · induction ops generalizing s with
    | nil => simpa using hs
    | cons p ps ih =>
        simp only [List.foldl_cons]
        exact ih _ (loopStep_staged_le m s p.1 p.2 hs)

/-- C3 witness: the empty schedule from the startup state. -/
theorem c3_staging_bound_witness :
    (MAX_STAGING_FILES ≤ (⟨0, 0, 0, 0⟩ : LoopState).staged →
      (loopStep c3Mix ⟨0, 0, 0, 0⟩ c3OracleMid 0).staged ≤
        (⟨0, 0, 0, 0⟩ : LoopState).staged) ∧
    (([] : List (IterOracle × ℕ)).foldl
        (fun st p => loopStep c3Mix st p.1 p.2) ⟨0, 0, 0, 0⟩).staged ≤
      MAX_STAGING_FILES + 1 :=
  c3_staging_bound c3Mix c3OracleMid 0 [] ⟨0, 0, 0, 0⟩ (by decide)

/-! ## C4 — PTS accounting and failed-render cleanup -/

/-- C4 counterexample: a render that times out after the encoder wrote a
partial `out.ts`, with the `os.unlink` attempt itself failing (an
`OSError` the source swallows with `pass`): the render reports failure yet
the partial output file survives in staging, refuting "any partial output
file is deleted". -/
theorem c4_counterexample :
    (finishRender ["f.ts"] "out.ts" ProcOutcome.timeout true false).1 = false ∧
    "out.ts" ∈ (finishRender ["f.ts"] "out.ts" ProcOutcome.timeout true false).2 := by
  decide

/-- C4 (amended): a render attempt succeeds exactly on encoder exit
code 0; on any failure (non-zero exit, timeout or exception) the partial
output file is absent from staging afterwards provided the best-effort
`os.unlink` does not itself fail with a swallowed `OSError`; within a
main-loop iteration, `cumulative_ts` advances by exactly the sum of the
post-speed durations of the successful render attempts (so an iteration
with failed renders leaves it unchanged); and every non-bumper attempt's
credited duration is the picked use duration times the drawn speed
multiplier. -/
theorem c4_pts_accounting (fs : List String) (out : String) (oc : ProcOutcome)
    (wrote unlinkOk : Bool) (m : MixCfg) (s : LoopState) (o : IterOracle) :
    ((finishRender fs out oc wrote unlinkOk).1 = isSuccess oc) ∧
    (isSuccess oc = false → unlinkOk = true →
       out ∉ (finishRender fs out oc wrote unlinkOk).2) ∧
    ((iterFragments m s o).2.cumulative_ts =
       s.cumulative_ts +
         (((iterFragments m s o).1.filter RenderEv.ok).map RenderEv.dur).sum) ∧
    (∀ ev ∈ (iterFragments m s o).1, ev.isBumper = false →
       ev.dur =
         (pick_clip m.clips m.clipMin m.clipMax o.clipIdx o.useDur o.startDraw).2.2.1 *
           o.speed) := by
  refine ⟨?_, ?_, ?_, ?_⟩
  · unfold finishRender
    split <;> split <;> simp_all
  · intro hf hu
    simp [finishRender, hf, hu, List.mem_filter]
  · by_cases hz : s.lastBumperTime = 0 <;>
      cases hb : bumperDue m s o.now <;>
        cases hbo : isSuccess o.bumperOutcome <;>
          cases hco : isSuccess o.clipOutcome <;>
            simp [iterFragments, hz, hb, hbo, hco] <;> ring
  · by_cases hz : s.lastBumperTime = 0 <;>
      cases hb : bumperDue m s o.now <;>
        cases hbo : isSuccess o.bumperOutcome <;>
          cases hco : isSuccess o.clipOutcome <;>
            simp [iterFragments, hz, hb, hbo, hco]

/-- C4 witness: a failed render at a concrete input (timeout, partial
output written, unlink succeeding) and the concrete iteration of the C1
inputs. -/
theorem c4_pts_accounting_witness :
    ((finishRender ["f.ts"] "out.ts" ProcOutcome.timeout true true).1 =
       isSuccess ProcOutcome.timeout) ∧
    (isSuccess ProcOutcome.timeout = false → true = true →
       "out.ts" ∉ (finishRender ["f.ts"] "out.ts" ProcOutcome.timeout true true).2) ∧
    ((iterFragments c1Mix c1State c1Oracle).2.cumulative_ts =
       c1State.cumulative_ts +
         (((iterFragments c1Mix c1State c1Oracle).1.filter RenderEv.ok).map
             RenderEv.dur).sum) ∧
    (∀ ev ∈ (iterFragments c1Mix c1State c1Oracle).1, ev.isBumper = false →
       ev.dur =
         (pick_clip c1Mix.clips c1Mix.clipMin c1Mix.clipMax c1Oracle.clipIdx
             c1Oracle.useDur c1Oracle.startDraw).2.2.1 *
           c1Oracle.speed) :=
  c4_pts_accounting ["f.ts"] "out.ts" ProcOutcome.timeout true true c1Mix c1State
    c1Oracle

/-! ## C8 — `pick_effects` tier caps and incompatibility -/

/-- Number of medium-tier effects in a selection. -/
def mediumIn (l : List Effect) : ℕ := l.countP (fun e => decide (e ∈ MEDIUM_EFFECTS))

/-- Number of heavy-tier effects in a selection. -/
def heavyIn (l : List Effect) : ℕ := l.countP (fun e => decide (e ∈ HEAVY_EFFECTS))

/-- Invariant of the `pick_effects` loop state: the name set mirrors the
chosen list, the tier counters bound the tier contents and respect the
caps, and no incompatible pair has been chosen. -/
structure PickInv (s : PickState) : Prop where
  names_eq : s.chosenNames = s.chosen.map Effect.name
  mc_le : s.mediumCount ≤ 2
  hc_le : s.heavyCount ≤ 1
  med_le : mediumIn s.chosen ≤ s.mediumCount
  heavy_le : heavyIn s.chosen ≤ s.heavyCount
  noclash : ¬("edge_glow" ∈ s.chosenNames ∧ "high_saturation" ∈ s.chosenNames)

/-- The effect tiers are disjoint: no light effect is medium or heavy. -/
theorem light_not_medium : ∀ e ∈ LIGHT_EFFECTS, e ∉ MEDIUM_EFFECTS := by decide

/-- No light effect is heavy. -/
theorem light_not_heavy : ∀ e ∈ LIGHT_EFFECTS, e ∉ HEAVY_EFFECTS := by decide

/-- No medium effect is heavy. -/
theorem medium_not_heavy : ∀ e ∈ MEDIUM_EFFECTS, e ∉ HEAVY_EFFECTS := by decide

/-- No heavy effect is medium. -/
theorem heavy_not_medium : ∀ e ∈ HEAVY_EFFECTS, e ∉ MEDIUM_EFFECTS := by decide

/-- When `edge_glow` alone was chosen, the blocked set is
`high_saturation`. -/
theorem blockedFor_of_left (ns : List String)
    (h1 : "edge_glow" ∈ ns) (h2 : "high_saturation" ∉ ns) :
    blockedFor ns = ["high_saturation"] := by
  simp [blockedFor, INCOMPATIBLE_PAIRS, h1, h2]

/-- When `high_saturation` alone was chosen, the blocked set is
`edge_glow`. -/
theorem blockedFor_of_right (ns : List String)
    (h1 : "edge_glow" ∉ ns) (h2 : "high_saturation" ∈ ns) :
    blockedFor ns = ["edge_glow"] := by
  simp [blockedFor, INCOMPATIBLE_PAIRS, h1, h2]

/-- When neither member of the pair was chosen, nothing is blocked. -/
theorem blockedFor_of_none (ns : List String)
    (h1 : "edge_glow" ∉ ns) (h2 : "high_saturation" ∉ ns) :
    blockedFor ns = [] := by
  simp [blockedFor, INCOMPATIBLE_PAIRS, h1, h2]

/-- In the single-blocked-name situation the chosen effect comes from the
pool and avoids the blocked name (the eligible set being non-empty, the
fallback to the full pool does not fire). -/
theorem pickedEffect_mem_blocked (pool : List Effect) (ci : ℕ) (ns : List String)
    (b : String) (hb : blockedFor ns = [b])
    (hne : (pool.filter (fun e => decide (e.name ∉ [b]))).isEmpty = false) :
    pickedEffect pool ci ns ∈ pool ∧ (pickedEffect pool ci ns).name ≠ b := by
  unfold pickedEffect
  rw [hb]
  dsimp only
  rw [if_neg (by rw [hne]; exact Bool.false_ne_true)]
  have hne' : pool.filter (fun e => decide (e.name ∉ [b])) ≠ [] := by
    intro hcon
    rw [hcon] at hne
    simp at hne
  have hmem := getD_mod_mem (pool.filter (fun e => decide (e.name ∉ [b]))) ci
    (⟨"", ""⟩ : Effect) hne'
  refine ⟨(List.mem_filter.mp hmem).1, ?_⟩
  have hpred := of_decide_eq_true (List.mem_filter.mp hmem).2
  exact fun heq => hpred (List.mem_singleton.mpr heq)

/-- With nothing blocked the chosen effect comes from the pool. -/
theorem pickedEffect_mem_noblock (pool : List Effect) (ci : ℕ) (ns : List String)
    (hb : blockedFor ns = []) (hne : pool ≠ []) :
    pickedEffect pool ci ns ∈ pool := by
  unfold pickedEffect
  rw [hb]
  dsimp only
  have hfil : pool.filter (fun e => decide (e.name ∉ ([] : List String))) = pool := by
    apply List.filter_eq_self.mpr
    intro e _
    simp
  rw [hfil, if_neg (by simp [List.isEmpty_iff, hne])]
  exact getD_mod_mem pool ci ⟨"", ""⟩ hne

/-- The chosen effect always comes from the current pool, and is never a
blocked partner of an already-chosen incompatible-pair member. -/
theorem pickedEffect_facts (pool : List Effect) (ci : ℕ) (ns : List String)
    (hpools : pool = LIGHT_EFFECTS ∨ pool = MEDIUM_EFFECTS ∨ pool = HEAVY_EFFECTS)
    (hnc : ¬("edge_glow" ∈ ns ∧ "high_saturation" ∈ ns)) :
    pickedEffect pool ci ns ∈ pool ∧
    ("edge_glow" ∈ ns → (pickedEffect pool ci ns).name ≠ "high_saturation") ∧
    ("high_saturation" ∈ ns → (pickedEffect pool ci ns).name ≠ "edge_glow") := by
  by_cases h1 : "edge_glow" ∈ ns
  · have h2 : "high_saturation" ∉ ns := fun hh => hnc ⟨h1, hh⟩
    have hb := blockedFor_of_left ns h1 h2
    have hkey : pickedEffect pool ci ns ∈ pool ∧
        (pickedEffect pool ci ns).name ≠ "high_saturation" := by
      rcases hpools with rfl | rfl | rfl
      · exact pickedEffect_mem_blocked _ ci ns _ hb (by decide)
      · exact pickedEffect_mem_blocked _ ci ns _ hb (by decide)
      · exact pickedEffect_mem_blocked _ ci ns _ hb (by decide)
    exact ⟨hkey.1, fun _ => hkey.2, fun hh => absurd hh h2⟩
  · by_cases h2 : "high_saturation" ∈ ns
    · have hb := blockedFor_of_right ns h1 h2
      have hkey : pickedEffect pool ci ns ∈ pool ∧
          (pickedEffect pool ci ns).name ≠ "edge_glow" := by
        rcases hpools with rfl | rfl | rfl
        · exact pickedEffect_mem_blocked _ ci ns _ hb (by decide)
        · exact pickedEffect_mem_blocked _ ci ns _ hb (by decide)
        · exact pickedEffect_mem_blocked _ ci ns _ hb (by decide)
      exact ⟨hkey.1, fun hh => absurd hh h1, fun _ => hkey.2⟩
    · have hb := blockedFor_of_none ns h1 h2
      have hkey : pickedEffect pool ci ns ∈ pool := by
        rcases hpools with rfl | rfl | rfl
        · exact pickedEffect_mem_noblock _ ci ns hb (by decide)
        · exact pickedEffect_mem_noblock _ ci ns hb (by decide)
        · exact pickedEffect_mem_noblock _ ci ns hb (by decide)
      exact ⟨hkey, fun hh => absurd hh h1, fun hh => absurd hh h2⟩

/-- Appending one effect changes the medium count by its medium
membership. -/
theorem mediumIn_append (l : List Effect) (e : Effect) :
    mediumIn (l ++ [e]) = mediumIn l + (if e ∈ MEDIUM_EFFECTS then 1 else 0) := by
  simp [mediumIn, List.countP_append, List.countP_cons]

/-- Appending one effect changes the heavy count by its heavy
membership. -/
theorem heavyIn_append (l : List Effect) (e : Effect) :
    heavyIn (l ++ [e]) = heavyIn l + (if e ∈ HEAVY_EFFECTS then 1 else 0) := by
  simp [heavyIn, List.countP_append, List.countP_cons]

/-- The common loop body preserves the invariant and grows the chosen list
by one, given the pool/tier side conditions established by the cap
logic. -/
theorem pickApply_inv (pool : List Effect) (tier : Tier) (ci : ℕ)
    (s : PickState) (h : PickInv s)
    (hpools : pool = LIGHT_EFFECTS ∨ pool = MEDIUM_EFFECTS ∨ pool = HEAVY_EFFECTS)
    (hlp : tier = Tier.light → pool = LIGHT_EFFECTS)
    (hmp : tier = Tier.medium → pool = MEDIUM_EFFECTS ∧ s.mediumCount ≤ 1)
    (hhp : tier = Tier.heavy → pool = HEAVY_EFFECTS ∧ s.heavyCount = 0) :
    PickInv (pickApply pool tier ci s) ∧
    (pickApply pool tier ci s).chosen.length = s.chosen.length + 1 := by
  obtain ⟨hmem, hn1, hn2⟩ := pickedEffect_facts pool ci s.chosenNames hpools h.noclash
  refine ⟨⟨?_, ?_, ?_, ?_, ?_, ?_⟩, ?_⟩
  · simp [pickApply, h.names_eq]
  · cases tier with
    | light => simpa [pickApply] using h.mc_le
    | medium =>
        have := (hmp rfl).2
        simp [pickApply]
        omega
    | heavy => simpa [pickApply] using h.mc_le
  · cases tier with
    | light => simpa [pickApply] using h.hc_le
    | medium => simpa [pickApply] using h.hc_le
    | heavy =>
        have := (hhp rfl).2
        simp [pickApply]
        omega
  · show mediumIn (s.chosen ++ [pickedEffect pool ci s.chosenNames]) ≤ _
    rw [mediumIn_append]
    cases tier with
    | light =>
        rw [if_neg (light_not_medium _ ((hlp rfl) ▸ hmem))]
        simpa [pickApply] using h.med_le
    | medium =>
        have hle := h.med_le
        simp [pickApply]
        split <;> omega
    | heavy =>
        rw [if_neg (heavy_not_medium _ ((hhp rfl).1 ▸ hmem))]
        simpa [pickApply] using h.med_le
  · show heavyIn (s.chosen ++ [pickedEffect pool ci s.chosenNames]) ≤ _
    rw [heavyIn_append]
    cases tier with
    | light =>
        rw [if_neg (light_not_heavy _ ((hlp rfl) ▸ hmem))]
        simpa [pickApply] using h.heavy_le
    | medium =>
        rw [if_neg (medium_not_heavy _ ((hmp rfl).1 ▸ hmem))]
        simpa [pickApply] using h.heavy_le
    | heavy =>
        have hle := h.heavy_le
        simp [pickApply]
        split <;> omega
  · show ¬("edge_glow" ∈ s.chosenNames ++ [(pickedEffect pool ci s.chosenNames).name] ∧
          "high_saturation" ∈ s.chosenNames ++ [(pickedEffect pool ci s.chosenNames).name])
    rintro ⟨hegIn, hhsIn⟩
    rw [List.mem_append, List.mem_singleton] at hegIn hhsIn
    rcases hegIn with hegNs | hegEff <;> rcases hhsIn with hhsNs | hhsEff
    · exact h.noclash ⟨hegNs, hhsNs⟩
    · exact hn1 hegNs hhsEff.symm
    · exact hn2 hhsNs hegEff.symm
    · rw [← hegEff] at hhsEff
      exact absurd hhsEff (by decide)
  · simp [pickApply]

/-- Every `pickStep` is a `pickApply` at a pool/tier pair satisfying the
cap side conditions: a medium pick only happens below the two-medium cap,
a heavy pick only below the one-heavy cap, and each tier draws from its
own catalog pool. -/
theorem pickStep_eq_pickApply (lw mt roll : ℚ) (ci : ℕ) (s : PickState) :
    ∃ pool tier,
      pickStep lw mt roll ci s = pickApply pool tier ci s ∧
      (pool = LIGHT_EFFECTS ∨ pool = MEDIUM_EFFECTS ∨ pool = HEAVY_EFFECTS) ∧
      (tier = Tier.light → pool = LIGHT_EFFECTS) ∧
      (tier = Tier.medium → pool = MEDIUM_EFFECTS ∧ s.mediumCount ≤ 1) ∧
      (tier = Tier.heavy → pool = HEAVY_EFFECTS ∧ s.heavyCount = 0) := by
  by_cases hr1 : roll < lw
  · exact ⟨LIGHT_EFFECTS, Tier.light, by simp [pickStep, hr1], Or.inl rfl,
      fun _ => rfl, fun h => absurd h (by decide), fun h => absurd h (by decide)⟩
  · by_cases hr2 : roll < mt
    · by_cases hm2 : 2 ≤ s.mediumCount
      · exact ⟨LIGHT_EFFECTS, Tier.light, by simp [pickStep, hr1, hr2, hm2],
          Or.inl rfl, fun _ => rfl, fun h => absurd h (by decide),
          fun h => absurd h (by decide)⟩
      · exact ⟨MEDIUM_EFFECTS, Tier.medium, by simp [pickStep, hr1, hr2, hm2],
          Or.inr (Or.inl rfl), fun h => absurd h (by decide),
          fun _ => ⟨rfl, by omega⟩, fun h => absurd h (by decide)⟩
    · by_cases hh1 : 1 ≤ s.heavyCount
      · by_cases hm2 : s.mediumCount < 2
        · exact ⟨MEDIUM_EFFECTS, Tier.medium, by simp [pickStep, hr1, hr2, hh1, hm2],
            Or.inr (Or.inl rfl), fun h => absurd h (by decide),
            fun _ => ⟨rfl, by omega⟩, fun h => absurd h (by decide)⟩
        · exact ⟨LIGHT_EFFECTS, Tier.light, by simp [pickStep, hr1, hr2, hh1, hm2],
            Or.inl rfl, fun _ => rfl, fun h => absurd h (by decide),
            fun h => absurd h (by decide)⟩
      · exact ⟨HEAVY_EFFECTS, Tier.heavy, by simp [pickStep, hr1, hr2, hh1],
          Or.inr (Or.inr rfl), fun h => absurd h (by decide),
          fun h => absurd h (by decide), fun _ => ⟨rfl, by omega⟩⟩

/-- One loop iteration preserves the invariant and adds one effect. -/
theorem pickStep_inv (lw mt roll : ℚ) (ci : ℕ) (s : PickState) (h : PickInv s) :
    PickInv (pickStep lw mt roll ci s) ∧
    (pickStep lw mt roll ci s).chosen.length = s.chosen.length + 1 := by
  obtain ⟨pool, tier, heq, hpools, hlp, hmp, hhp⟩ := pickStep_eq_pickApply lw mt roll ci s
  rw [heq]
  exact pickApply_inv pool tier ci s h hpools hlp hmp hhp

/-- The whole selection loop preserves the invariant and adds exactly
`n` effects. -/
theorem pickLoop_inv (lw mt : ℚ) (roll : ℕ → ℚ) (choose : ℕ → ℕ) (n : ℕ) :
    ∀ (i : ℕ) (s : PickState), PickInv s →
      PickInv (pickLoop lw mt roll choose i n s) ∧
      (pickLoop lw mt roll choose i n s).chosen.length = s.chosen.length + n := by
  induction n with
  | zero =>
      intro i s h
      exact ⟨h, rfl⟩
  | succ n ih =>
      intro i s h
      obtain ⟨h1, h2⟩ := pickStep_inv lw mt (roll i) (choose i) s h
      obtain ⟨h3, h4⟩ := ih (i + 1) (pickStep lw mt (roll i) (choose i) s) h1
      refine ⟨h3, ?_⟩
      show (pickLoop lw mt roll choose (i + 1) n
          (pickStep lw mt (roll i) (choose i) s)).chosen.length =
        s.chosen.length + (n + 1)
      omega

/-- C8: for every `min ≤ max`, every daypart and every run of the random
oracles, `pick_effects` returns a list whose length is the `randint` draw
(hence within `[min, max]`), containing at most two medium-tier and at
most one heavy-tier effects, and never containing both members of an
incompatible pair. -/
theorem c8_pick_effects_policy (min_count max_count count : ℕ)
    (daypart : Option String) (roll : ℕ → ℚ) (choose : ℕ → ℕ)
    (hmm : min_count ≤ max_count) (hc1 : min_count ≤ count)
    (hc2 : count ≤ max_count) :
    min_count ≤ (pick_effects min_count max_count daypart count roll choose).length ∧
    (pick_effects min_count max_count daypart count roll choose).length ≤ max_count ∧
    mediumIn (pick_effects min_count max_count daypart count roll choose) ≤ 2 ∧
    heavyIn (pick_effects min_count max_count daypart count roll choose) ≤ 1 ∧
    ¬("edge_glow" ∈ (pick_effects min_count max_count daypart count roll choose).map
        Effect.name ∧
      "high_saturation" ∈ (pick_effects min_count max_count daypart count roll choose).map
        Effect.name) := by
  have h0 : PickInv ⟨[], [], 0, 0⟩ :=
    ⟨rfl, by decide, by decide, by decide, by decide, by simp⟩
  obtain ⟨hinv, hlen⟩ := pickLoop_inv (getProfile daypart).tierWeights.1
    ((getProfile daypart).tierWeights.1 + (getProfile daypart).tierWeights.2.1)
    roll choose count 0 ⟨[], [], 0, 0⟩ h0
  unfold pick_effects
  dsimp only
  refine ⟨?_, ?_, ?_, ?_, ?_⟩
  · rw [hlen]
    simpa using hc1
  · rw [hlen]
    simpa using hc2
  · exact le_trans hinv.med_le hinv.mc_le
  · exact le_trans hinv.heavy_le hinv.hc_le
  · rw [← hinv.names_eq]
    exact hinv.noclash

/-- C8 witness: two draws for the nighttime daypart. -/
theorem c8_pick_effects_policy_witness :
    1 ≤ (pick_effects 1 3 (some "nighttime") 2 (fun _ => 1/2) (fun _ => 0)).length ∧
    (pick_effects 1 3 (some "nighttime") 2 (fun _ => 1/2) (fun _ => 0)).length ≤ 3 ∧
    mediumIn (pick_effects 1 3 (some "nighttime") 2 (fun _ => 1/2) (fun _ => 0)) ≤ 2 ∧
    heavyIn (pick_effects 1 3 (some "nighttime") 2 (fun _ => 1/2) (fun _ => 0)) ≤ 1 ∧
    ¬("edge_glow" ∈ (pick_effects 1 3 (some "nighttime") 2 (fun _ => 1/2)
        (fun _ => 0)).map Effect.name ∧
      "high_saturation" ∈ (pick_effects 1 3 (some "nighttime") 2 (fun _ => 1/2)
        (fun _ => 0)).map Effect.name) :=
  c8_pick_effects_policy 1 3 2 (some "nighttime") (fun _ => 1/2) (fun _ => 0)
    (by omega) (by omega) (by omega)

end VJ
